import Mathlib

/-!
Verification of the `rust-rpi-rgb-led-matrix` configuration / resource layer.

The Rust sources (`src/led_matrix_options.rs`, `src/lib.rs`, `src/c.rs`) are
shallowly embedded below.  Native C strings are modelled by a `Heap` of
live buffers identified by `Nat` ids; a raw `*mut c_char` field of the
`Options` record is the id of the buffer it points to.  `CString::new`
fails (and `.unwrap()` panics) exactly when the input contains an interior
NUL byte; `CString::from_raw` followed by dropping the value frees the
buffer.  Machine integers (`c_int`, `u16`, `u8`) are modelled as `Int`/`Nat`:
every operation here only stores values far below any overflow boundary,
so the embedding is exact on the represented ranges.

The native driver (`librgbmatrix`) is external to the repository; the few
of its behaviours that claims depend on (canvas size, vsync swap) are
modelled from the spec and are marked `Modelled from the spec:` in their
doc comments.
-/

/-- A byte string contains an interior NUL, i.e. `CString::new` on it fails. -/
def hasNul (s : String) : Bool := s.data.contains (Char.ofNat 0)

/-- The native allocation state: the list of live C-string buffers
`(id, contents)` together with a fresh-id counter. -/
structure Heap where
  alloc : List (Nat × String)
  fresh : Nat
deriving DecidableEq

/-- `CString::new(s).unwrap().into_raw()` : allocates a fresh buffer holding
`s`, or fails (models the `unwrap` panic) when `s` has an interior NUL. -/
def Heap.cstringNew (h : Heap) (s : String) : Option (Heap × Nat) :=
  if hasNul s then none
  else some (⟨(h.fresh, s) :: h.alloc, h.fresh + 1⟩, h.fresh)

/-- Dropping the result of `CString::from_raw(p)` : the buffer `p` is freed. -/
def Heap.free (h : Heap) (p : Nat) : Heap :=
  ⟨h.alloc.filter (fun q => q.1 != p), h.fresh⟩

/-- Is the buffer `p` currently allocated? -/
def Heap.live (h : Heap) (p : Nat) : Bool :=
  h.alloc.any (fun q => q.1 == p)

/-- The contents of buffer `p`, when it is allocated. -/
def Heap.val (h : Heap) (p : Nat) : Option String :=
  (h.alloc.find? (fun q => q.1 == p)).map (fun q => q.2)

/-- `ScanMode` from `led_matrix_options.rs`. -/
inductive ScanMode where
  | Progressive
  | Interlaced
deriving DecidableEq

/-- The `as c_int` cast of a `ScanMode` discriminant. -/
def ScanMode.toInt : ScanMode → Int
  | .Progressive => 0
  | .Interlaced => 1

/-- `RowAddressType` from `led_matrix_options.rs`. -/
inductive RowAddressType where
  | Direct
  | ShiftRegister
  | DirectABCDLine
  | ABCShiftRegister
deriving DecidableEq

/-- The `as c_int` cast of a `RowAddressType` discriminant. -/
def RowAddressType.toInt : RowAddressType → Int
  | .Direct => 0
  | .ShiftRegister => 1
  | .DirectABCDLine => 2
  | .ABCShiftRegister => 3

/-- `Multiplexing` from `led_matrix_options.rs`. -/
inductive Multiplexing where
  | Direct
  | Stripe
  | Checkered
  | Spiral
  | ZStripe
  | ZnMirrorZStripe
  | Coreman
deriving DecidableEq

/-- The `as c_int` cast of a `Multiplexing` discriminant. -/
def Multiplexing.toInt : Multiplexing → Int
  | .Direct => 0
  | .Stripe => 1
  | .Checkered => 2
  | .Spiral => 3
  | .ZStripe => 4
  | .ZnMirrorZStripe => 5
  | .Coreman => 6

/-- `struct Options` (`#[repr(C, packed)]`) from `led_matrix_options.rs`.
`*mut c_char` fields hold buffer ids; `c_int` fields are `Int`; the three
`c_uint` flag fields are `Nat`. -/
structure Options where
  hardware_mapping : Nat
  rows : Int
  cols : Int
  chain_length : Int
  parallel : Int
  pwm_bits : Int
  pwm_lsb_nanoseconds : Int
  pwm_dither_bits : Int
  brightness : Int
  scan_mode : Int
  row_address_type : Int
  multiplexing : Int
  led_rgb_sequence : Nat
  pixel_mapper_config : Nat
  panel_type : Nat
  disable_hardware_pulsing : Nat
  show_refresh_rate : Nat
  inverse_colors : Nat
deriving DecidableEq

/-- `Options::new()` : allocates the four default string buffers (in source
order: hardware mapping, RGB sequence, pixel-mapper config, panel type) and
fills in the documented default field values.  `none` models a panic of one
of the `unwrap`s (never reached: the literals have no interior NUL). -/
def Options.new (h : Heap) : Option (Heap × Options) :=
  match h.cstringNew "regular" with
  | none => none
  | some (h1, hm) =>
    match h1.cstringNew "RGB" with
    | none => none
    | some (h2, seq) =>
      match h2.cstringNew "" with
      | none => none
      | some (h3, pmc) =>
        match h3.cstringNew "" with
        | none => none
        | some (h4, pt) =>
          some (h4,
            { hardware_mapping := hm
              rows := 32
              cols := 32
              chain_length := 1
              parallel := 1
              pwm_bits := 11
              pwm_lsb_nanoseconds := 1000
              pwm_dither_bits := 1
              brightness := 100
              scan_mode := ScanMode.Progressive.toInt
              row_address_type := RowAddressType.Direct.toInt
              multiplexing := Multiplexing.Direct.toInt
              led_rgb_sequence := seq
              pixel_mapper_config := pmc
              panel_type := pt
              disable_hardware_pulsing := 1
              show_refresh_rate := 1
              inverse_colors := 1 })

/-- Outcome of a string setter: either the new heap and record, or a panic
of `CString::new(..).unwrap()`, carrying the heap and record exactly as they
stand at the moment of the panic. -/
inductive SetterResult where
  | ok (h : Heap) (o : Options)
  | panicked (h : Heap) (o : Options)
deriving DecidableEq

/-- Did the setter complete normally? -/
def SetterResult.isOk : SetterResult → Bool
  | .ok _ _ => true
  | .panicked _ _ => false

/-- `Options::set_hardware_mapping` : first `CString::from_raw(self.hardware_mapping)`
is dropped (freeing the old buffer), then `CString::new(mapping).unwrap().into_raw()`
is stored; the `unwrap` panics after the free when `mapping` has an interior NUL. -/
def Options.set_hardware_mapping (h : Heap) (o : Options) (mapping : String) : SetterResult :=
  let h1 := h.free o.hardware_mapping
  match h1.cstringNew mapping with
  | none => .panicked h1 o
  | some (h2, p) => .ok h2 { o with hardware_mapping := p }

/-- `Options::set_led_rgb_sequence` : free old buffer, then allocate the new one. -/
def Options.set_led_rgb_sequence (h : Heap) (o : Options) (sequence : String) : SetterResult :=
  let h1 := h.free o.led_rgb_sequence
  match h1.cstringNew sequence with
  | none => .panicked h1 o
  | some (h2, p) => .ok h2 { o with led_rgb_sequence := p }

/-- `Options::set_pixel_mapper_config` : free old buffer, then allocate the new one. -/
def Options.set_pixel_mapper_config (h : Heap) (o : Options) (pixel_mapper_config : String) :
    SetterResult :=
  let h1 := h.free o.pixel_mapper_config
  match h1.cstringNew pixel_mapper_config with
  | none => .panicked h1 o
  | some (h2, p) => .ok h2 { o with pixel_mapper_config := p }

/-- `Options::set_panel_type` : free old buffer, then allocate the new one. -/
def Options.set_panel_type (h : Heap) (o : Options) (panel_type : String) : SetterResult :=
  let h1 := h.free o.panel_type
  match h1.cstringNew panel_type with
  | none => .panicked h1 o
  | some (h2, p) => .ok h2 { o with panel_type := p }

/-- `Options::set_rows` (`u16` argument, stored `as c_int`). -/
def Options.set_rows (o : Options) (rows : Nat) : Options :=
  { o with rows := (rows : Int) }

/-- `Options::set_cols` (`u16` argument, stored `as c_int`). -/
def Options.set_cols (o : Options) (cols : Nat) : Options :=
  { o with cols := (cols : Int) }

/-- `Options::set_chain_length` (`u16` argument, stored `as c_int`). -/
def Options.set_chain_length (o : Options) (chain_length : Nat) : Options :=
  { o with chain_length := (chain_length : Int) }

/-- `ParallelError { parallel: u16 }`. -/
structure ParallelError where
  parallel : Nat
deriving DecidableEq

/-- `PwmBitsError { pwm_bits: u8 }`. -/
structure PwmBitsError where
  pwm_bits : Nat
deriving DecidableEq

/-- `BrightnessError { brightness: u8 }`. -/
structure BrightnessError where
  brightness : Nat
deriving DecidableEq

/-- `Options::set_parallel` : rejects values outside `1..=3`, otherwise stores
the value; returns the record together with the `Result<(), ParallelError>`. -/
def Options.set_parallel (o : Options) (parallel : Nat) :
    Options × Except ParallelError Unit :=
  if parallel < 1 ∨ parallel > 3 then (o, Except.error ⟨parallel⟩)
  else ({ o with parallel := (parallel : Int) }, Except.ok ())

/-- `Options::set_pwm_bits` : rejects `u8` values above 11, otherwise stores. -/
def Options.set_pwm_bits (o : Options) (pwm_bits : Nat) :
    Options × Except PwmBitsError Unit :=
  if pwm_bits > 11 then (o, Except.error ⟨pwm_bits⟩)
  else ({ o with pwm_bits := (pwm_bits : Int) }, Except.ok ())

/-- `Options::set_brightness` : rejects values outside `1..=100`, otherwise stores. -/
def Options.set_brightness (o : Options) (brightness : Nat) :
    Options × Except BrightnessError Unit :=
  if brightness > 100 ∨ brightness < 1 then (o, Except.error ⟨brightness⟩)
  else ({ o with brightness := (brightness : Int) }, Except.ok ())

/-- `impl Drop for Options` : frees the `hardware_mapping` and
`led_rgb_sequence` buffers (and, as in the source, only those two). -/
def Options.drop (h : Heap) (o : Options) : Heap :=
  (h.free o.hardware_mapping).free o.led_rgb_sequence

/-- `LedColor` from `c.rs` (`u8` components modelled as `Nat`). -/
structure LedColor where
  red : Nat
  green : Nat
  blue : Nat
deriving DecidableEq

/-- `Pixel` from `lib.rs` (`i32` coordinates modelled as `Int`). -/
structure Pixel where
  x : Int
  y : Int
deriving DecidableEq

/-- The traits listed in the `#[derive(...)]` attribute on `Pixel` in `lib.rs`. -/
def pixelDerives : List String := ["Debug", "Clone", "Copy", "PartialEq", "Eq"]

/-- The traits listed in a `#[derive(...)]` attribute on `LedColor` in `c.rs`
(the struct carries no derive attribute at all). -/
def ledColorDerives : List String := []

/-- `LedCanvas` from `lib.rs`: a non-owning wrapper of a native canvas handle. -/
structure LedCanvas where
  handle : Nat
deriving DecidableEq

/-- `LedMatrix` from `lib.rs`: the native handle plus the retained `_options`. -/
structure LedMatrix where
  handle : Nat
  _options : Options
deriving DecidableEq

/-- `NewMatrixError` from `lib.rs`. -/
inductive NewMatrixError where
  | mk
deriving DecidableEq

/-- `NewFontErrorKind` from `lib.rs`. -/
inductive NewFontErrorKind where
  | BadPath
  | LoadFailed
deriving DecidableEq

/-- `NewFontError { kind: NewFontErrorKind }` from `lib.rs`. -/
structure NewFontError where
  kind : NewFontErrorKind
deriving DecidableEq

/-- `LedFont` from `lib.rs`: an owning wrapper of a native font handle. -/
structure LedFont where
  handle : Nat
deriving DecidableEq

/-- `LedMatrix::new(options)` : resolves the argument (default construction
when `none`), calls the native `led_matrix_create_from_options` — whose
returned handle is supplied as `create_result`, with `0` standing for a null
pointer — and either returns the owning `LedMatrix` (which stores the
resolved options) or `NewMatrixError`; on the error path the local `options`
value goes out of scope and its `Drop` runs.  The outer `none` models a
panic inside default construction (never reached). -/
def LedMatrix.new (create_result : Nat) (h : Heap) (options : Option Options) :
    Option (Heap × Except NewMatrixError LedMatrix) :=
  let resolved : Option (Heap × Options) :=
    match options with
    | some o => some (h, o)
    | none => Options.new h
  match resolved with
  | none => none
  | some (h1, o) =>
    if create_result = 0 then
      some (Options.drop h1 o, Except.error NewMatrixError.mk)
    else
      some (h1, Except.ok ⟨create_result, o⟩)

/-- `impl Drop for LedMatrix` : `led_matrix_delete(self.handle)` (no effect on
the string heap), then the retained `_options` field is dropped. -/
def LedMatrix.drop (h : Heap) (m : LedMatrix) : Heap :=
  Options.drop h m._options

/-- A path argument (`&Path`): either valid UTF-8 with contents `s`, or not
representable as UTF-8 (so `Path::to_str` returns `None`). -/
inductive PathInput where
  | utf8 (s : String)
  | nonUtf8
deriving DecidableEq

/-- `Path::to_str`. -/
def PathInput.toStr : PathInput → Option String
  | .utf8 s => some s
  | .nonUtf8 => none

/-- Outcome of `LedFont::new`: a panic of `CString::new(..).unwrap()`, an
error value, or the owning font. -/
inductive FontNewResult where
  | panicked
  | err (e : NewFontError)
  | ok (f : LedFont)
deriving DecidableEq

/-- Is the outcome an error value returned to the caller? -/
def FontNewResult.isErrValue : FontNewResult → Bool
  | .err _ => true
  | _ => false

/-- `LedFont::new(bdf_file)` : `to_str` failure gives `BadPath`; then
`CString::new(string).unwrap()` panics on an interior NUL; otherwise the
native `load_font` is called — modelled by the function `load_font`, with
result `0` standing for a null pointer, which gives `LoadFailed`. -/
def LedFont.new (load_font : String → Nat) (bdf_file : PathInput) : FontNewResult :=
  match bdf_file.toStr with
  | none => .err ⟨.BadPath⟩
  | some s =>
    if hasNul s then .panicked
    else
      let handle := load_font s
      if handle = 0 then .err ⟨.LoadFailed⟩ else .ok ⟨handle⟩

/-- Outcome of `LedCanvas::draw_text`: a panic of `CString::new(text).unwrap()`,
or the advance returned by the native call. -/
inductive DrawTextResult where
  | panicked
  | ok (advance : Int)
deriving DecidableEq

/-- `LedCanvas::draw_text` : converts `text` to a C string first —
`CString::new(text).unwrap()` panics on an interior NUL — then dispatches to
the native `vertical_draw_text` or `draw_text`, each modelled as a supplied
function of the marshalled arguments returning the advance. -/
def LedCanvas.draw_text
    (native_draw_text native_vertical_draw_text :
      Nat → Nat → Int → Int → LedColor → String → Int → Int)
    (canvas : LedCanvas) (font : LedFont) (text : String) (pixel : Pixel)
    (color : LedColor) (kerning_offset : Int) (vertical : Bool) : DrawTextResult :=
  if hasNul text then .panicked
  else if vertical then
    .ok (native_vertical_draw_text canvas.handle font.handle pixel.x pixel.y
          color text kerning_offset)
  else
    .ok (native_draw_text canvas.handle font.handle pixel.x pixel.y
          color text kerning_offset)

/-- Modelled from the spec: the native double-buffer display state for one
matrix — which buffer id is currently active, and the pixel contents of every
buffer.  The native driver's implementation is outside the repository; this
is the two-state ping-pong machine the spec describes. -/
structure NativeDisplay where
  active : Nat
  frames : Nat → Pixel → LedColor

/-- Modelled from the spec: `led_matrix_swap_on_vsync` — after the vertical
refresh, the supplied canvas becomes active and the previously active buffer
is returned as the new drawing target. -/
def led_matrix_swap_on_vsync (st : NativeDisplay) (canvas : Nat) : NativeDisplay × Nat :=
  ({ st with active := canvas }, st.active)

/-- Modelled from the spec: `led_canvas_fill` — every pixel of the buffer is
set to the given colour. -/
def led_canvas_fill (st : NativeDisplay) (canvas : Nat) (color : LedColor) : NativeDisplay :=
  { st with frames := Function.update st.frames canvas (fun _ => color) }

/-- `LedMatrix::swap(canvas)` from `lib.rs`: forwards to
`led_matrix_swap_on_vsync` and wraps the returned handle. -/
def LedMatrix.swap (st : NativeDisplay) (m : LedMatrix) (canvas : LedCanvas) :
    NativeDisplay × LedCanvas :=
  let r := led_matrix_swap_on_vsync st canvas.handle
  (r.1, ⟨r.2⟩)

/-- `LedCanvas::fill(color)` from `lib.rs`: forwards to `led_canvas_fill`. -/
def LedCanvas.fill (st : NativeDisplay) (canvas : LedCanvas) (color : LedColor) :
    NativeDisplay :=
  led_canvas_fill st canvas.handle color

/-- Modelled from the spec: `led_canvas_get_size` for a canvas belonging to a
matrix configured by `o` — width is columns times chain length, height is
rows times parallel count (pinned by the repository's `canvas_size` test:
`(COLS * CHAIN_LENGTH, ROWS)` with parallel 1). -/
def led_canvas_get_size (o : Options) : Int × Int :=
  (o.cols * o.chain_length, o.rows * o.parallel)

/-- `LedCanvas::size()` from `lib.rs`: forwards the native size for a canvas
of a matrix configured by `o`. -/
def LedCanvas.size (o : Options) : Int × Int :=
  led_canvas_get_size o

/-- A concrete `Options` value used to instantiate universally quantified
theorems: buffer ids 0–3 with the default numeric fields. -/
def sampleOptions : Options :=
  ⟨0, 32, 32, 1, 1, 11, 1000, 1, 100, 0, 0, 0, 1, 2, 3, 1, 1, 1⟩

/-- A concrete heap matching `sampleOptions`: the four buffers 0–3 are live. -/
def sampleHeap : Heap :=
  ⟨[(3, ""), (2, ""), (1, "RGB"), (0, "regular")], 4⟩

/-! ## Theorems -/

/-- Freeing a buffer makes it dead: after `h.free p`, the id `p` is no longer
live. Shared helper for the setter and drop theorems. -/
theorem Heap.live_free_self (h : Heap) (p : Nat) : (h.free p).live p = false := by
  simp [Heap.free, Heap.live, List.any_eq_true, List.mem_filter]

/-- Claim C2: `set_parallel` succeeds and stores its argument exactly on
inputs in `[1,3]`, `set_pwm_bits` exactly on `[0,11]`, `set_brightness`
exactly on `[1,100]`; outside the range each returns its validation error and
leaves the record unchanged. -/
theorem c2_validated_setters (o : Options) (p w b : Nat) :
    (1 ≤ p ∧ p ≤ 3 →
      Options.set_parallel o p = ({ o with parallel := (p : Int) }, Except.ok ())) ∧
    (¬(1 ≤ p ∧ p ≤ 3) →
      Options.set_parallel o p = (o, Except.error ⟨p⟩)) ∧
    (w ≤ 11 →
      Options.set_pwm_bits o w = ({ o with pwm_bits := (w : Int) }, Except.ok ())) ∧
    (¬ w ≤ 11 →
      Options.set_pwm_bits o w = (o, Except.error ⟨w⟩)) ∧
    (1 ≤ b ∧ b ≤ 100 →
      Options.set_brightness o b = ({ o with brightness := (b : Int) }, Except.ok ())) ∧
    (¬(1 ≤ b ∧ b ≤ 100) →
      Options.set_brightness o b = (o, Except.error ⟨b⟩)) := by
  refine ⟨fun hp => ?_, fun hp => ?_, fun hw => ?_, fun hw => ?_, fun hb => ?_, fun hb => ?_⟩
  · unfold Options.set_parallel; rw [if_neg (by omega)]
  · unfold Options.set_parallel; rw [if_pos (by omega)]
  · unfold Options.set_pwm_bits; rw [if_neg (by omega)]
  · unfold Options.set_pwm_bits; rw [if_pos (by omega)]
  · unfold Options.set_brightness; rw [if_neg (by omega)]
  · unfold Options.set_brightness; rw [if_pos (by omega)]

/-- Witness for C2: both branches of each validated setter at concrete inputs. -/
theorem c2_validated_setters_witness :
    (Options.set_parallel sampleOptions 2
        = ({ sampleOptions with parallel := 2 }, Except.ok ())) ∧
    (Options.set_parallel sampleOptions 4 = (sampleOptions, Except.error ⟨4⟩)) ∧
    (Options.set_pwm_bits sampleOptions 11
        = ({ sampleOptions with pwm_bits := 11 }, Except.ok ())) ∧
    (Options.set_pwm_bits sampleOptions 12 = (sampleOptions, Except.error ⟨12⟩)) ∧
    (Options.set_brightness sampleOptions 100
        = ({ sampleOptions with brightness := 100 }, Except.ok ())) ∧
    (Options.set_brightness sampleOptions 0 = (sampleOptions, Except.error ⟨0⟩)) :=
  ⟨(c2_validated_setters sampleOptions 2 11 100).1 (by decide),
   (c2_validated_setters sampleOptions 4 11 100).2.1 (by decide),
   (c2_validated_setters sampleOptions 2 11 100).2.2.1 (by decide),
   (c2_validated_setters sampleOptions 2 12 100).2.2.2.1 (by decide),
   (c2_validated_setters sampleOptions 2 11 100).2.2.2.2.1 (by decide),
   (c2_validated_setters sampleOptions 2 11 0).2.2.2.2.2 (by decide)⟩

/-- Claim C4: the freshly constructed `Options` record has exactly the
documented default field values, and its four string buffers hold
`"regular"`, `"RGB"`, `""` and `""`. -/
theorem c4_default_options :
    ∃ h o, Options.new ⟨[], 0⟩ = some (h, o) ∧
      Heap.val h o.hardware_mapping = some "regular" ∧
      o.rows = 32 ∧ o.cols = 32 ∧ o.chain_length = 1 ∧ o.parallel = 1 ∧
      o.pwm_bits = 11 ∧ o.pwm_lsb_nanoseconds = 1000 ∧ o.pwm_dither_bits = 1 ∧
      o.brightness = 100 ∧ o.scan_mode = 0 ∧ o.row_address_type = 0 ∧
      o.multiplexing = 0 ∧
      Heap.val h o.led_rgb_sequence = some "RGB" ∧
      Heap.val h o.pixel_mapper_config = some "" ∧
      Heap.val h o.panel_type = some "" ∧
      o.disable_hardware_pulsing = 1 ∧ o.show_refresh_rate = 1 ∧ o.inverse_colors = 1 :=
  ⟨sampleHeap, sampleOptions, by decide⟩

/-- Claim C1 (code-bug evidence): a string setter frees the previous buffer
before attempting the new allocation.  On the fresh record, calling
`set_hardware_mapping` with an interior-NUL string panics, and at the moment
of the panic the old buffer — live before the call — has already been freed
while the field still holds its id. -/
theorem c1_free_happens_before_alloc :
    Heap.live sampleHeap sampleOptions.hardware_mapping = true ∧
    Options.set_hardware_mapping sampleHeap sampleOptions "a\x00b"
        = SetterResult.panicked (sampleHeap.free sampleOptions.hardware_mapping)
            sampleOptions ∧
    (sampleHeap.free sampleOptions.hardware_mapping).live
        sampleOptions.hardware_mapping = false := by decide

/-- Claim C3 (code-bug evidence): dropping the freshly constructed record
(directly, or transitively through `LedMatrix`'s drop) frees the hardware
mapping and RGB sequence buffers but leaves the pixel-mapper-config and
panel-type buffers allocated: two of the four owned buffers leak. -/
theorem c3_drop_leaks_two_buffers :
    Options.new ⟨[], 0⟩ = some (sampleHeap, sampleOptions) ∧
    Options.drop sampleHeap sampleOptions = ⟨[(3, ""), (2, "")], 4⟩ ∧
    (Options.drop sampleHeap sampleOptions).live sampleOptions.hardware_mapping = false ∧
    (Options.drop sampleHeap sampleOptions).live sampleOptions.led_rgb_sequence = false ∧
    (Options.drop sampleHeap sampleOptions).live sampleOptions.pixel_mapper_config = true ∧
    (Options.drop sampleHeap sampleOptions).live sampleOptions.panel_type = true ∧
    LedMatrix.drop sampleHeap ⟨5, sampleOptions⟩
        = Options.drop sampleHeap sampleOptions := by decide

/-- Claim C5: `LedMatrix::new` returns the owning matrix exactly when the
native creation result is non-null, storing the supplied (or default) options
and the non-null handle; on a null result it returns the creation error. -/
theorem c5_matrix_new (res : Nat) (h : Heap) (o : Options) (h1 : Heap) (o1 : Options) :
    (res ≠ 0 →
      LedMatrix.new res h (some o) = some (h, Except.ok ⟨res, o⟩) ∧
      (LedMatrix.mk res o).handle ≠ 0 ∧ (LedMatrix.mk res o)._options = o ∧
      (Options.new h = some (h1, o1) →
        LedMatrix.new res h none = some (h1, Except.ok ⟨res, o1⟩))) ∧
    (res = 0 →
      LedMatrix.new res h (some o)
          = some (Options.drop h o, Except.error NewMatrixError.mk) ∧
      (Options.new h = some (h1, o1) →
        LedMatrix.new res h none
            = some (Options.drop h1 o1, Except.error NewMatrixError.mk))) := by
  constructor
  · intro hr
    refine ⟨?_, hr, rfl, fun hn => ?_⟩
    · simp [LedMatrix.new, hr]
    · simp [LedMatrix.new, hn, hr]
  · intro hr
    subst hr
    refine ⟨?_, fun hn => ?_⟩
    · simp [LedMatrix.new]
    · simp [LedMatrix.new, hn]

/-- Witness for C5: creation at native result 5 (success) and 0 (failure). -/
theorem c5_matrix_new_witness :
    (LedMatrix.new 5 ⟨[], 0⟩ (some sampleOptions)
        = some (⟨[], 0⟩, Except.ok ⟨5, sampleOptions⟩) ∧
      (LedMatrix.mk 5 sampleOptions).handle ≠ 0 ∧
      (LedMatrix.mk 5 sampleOptions)._options = sampleOptions ∧
      (Options.new ⟨[], 0⟩ = some (sampleHeap, sampleOptions) →
        LedMatrix.new 5 ⟨[], 0⟩ none = some (sampleHeap, Except.ok ⟨5, sampleOptions⟩))) ∧
    (LedMatrix.new 0 ⟨[], 0⟩ (some sampleOptions)
        = some (Options.drop ⟨[], 0⟩ sampleOptions, Except.error NewMatrixError.mk)) :=
  ⟨(c5_matrix_new 5 ⟨[], 0⟩ sampleOptions sampleHeap sampleOptions).1 (by decide),
   ((c5_matrix_new 0 ⟨[], 0⟩ sampleOptions sampleHeap sampleOptions).2 rfl).1⟩

/-- Claim C6: `swap` returns the buffer that was active before the call, and
filling a canvas, swapping it in, then swapping again yields the same canvas
with every pixel still showing the fill colour. -/
theorem c6_swap_ping_pong (st : NativeDisplay) (m : LedMatrix) (canvas : LedCanvas)
    (color : LedColor) :
    (LedMatrix.swap st m canvas).2.handle = st.active ∧
    (LedMatrix.swap (LedMatrix.swap (LedCanvas.fill st canvas color) m canvas).1 m
        (LedMatrix.swap (LedCanvas.fill st canvas color) m canvas).2).2 = canvas ∧
    ∀ p : Pixel,
      (LedMatrix.swap (LedMatrix.swap (LedCanvas.fill st canvas color) m canvas).1 m
          (LedMatrix.swap (LedCanvas.fill st canvas color) m canvas).2).1.frames
          canvas.handle p = color := by
  refine ⟨rfl, rfl, fun p => ?_⟩
  simp [LedMatrix.swap, LedCanvas.fill, led_canvas_fill, led_matrix_swap_on_vsync,
    Function.update_same]

/-- Claim C7 (counterexample): with an interior NUL in a UTF-8 path or in the
text, the failure is signalled by a panic of `CString::new(..).unwrap()`, not
by an error value returned to the caller. -/
theorem c7_nul_reported_by_panic_not_error :
    LedFont.new (fun _ => 1) (PathInput.utf8 "a\x00b") = FontNewResult.panicked ∧
    (LedFont.new (fun _ => 1) (PathInput.utf8 "a\x00b")).isErrValue = false ∧
    LedCanvas.draw_text (fun _ _ _ _ _ _ _ => 1) (fun _ _ _ _ _ _ _ => 1)
        ⟨0⟩ ⟨0⟩ "a\x00b" ⟨0, 0⟩ ⟨0, 0, 0⟩ 0 false = DrawTextResult.panicked := by decide

/-- Claim C7 (amended): a non-UTF-8 font path is reported as a `BadPath`
error value before any native call; a UTF-8 path or a text string with an
interior NUL makes `LedFont::new` / `draw_text` panic before any native call
(the outcome is independent of the native functions); without an interior NUL
neither operation panics. -/
theorem c7_encoding_failures (load : String → Nat) (s text : String)
    (nh nv : Nat → Nat → Int → Int → LedColor → String → Int → Int)
    (canvas : LedCanvas) (font : LedFont) (pixel : Pixel) (color : LedColor)
    (kerning : Int) (vertical : Bool) :
    LedFont.new load PathInput.nonUtf8 = FontNewResult.err ⟨NewFontErrorKind.BadPath⟩ ∧
    (hasNul s = true →
      LedFont.new load (PathInput.utf8 s) = FontNewResult.panicked ∧
      ∀ load2 : String → Nat,
        LedFont.new load2 (PathInput.utf8 s) = FontNewResult.panicked) ∧
    (hasNul s = false →
      LedFont.new load (PathInput.utf8 s) ≠ FontNewResult.panicked) ∧
    (hasNul text = true →
      LedCanvas.draw_text nh nv canvas font text pixel color kerning vertical
          = DrawTextResult.panicked ∧
      ∀ nh2 nv2 : Nat → Nat → Int → Int → LedColor → String → Int → Int,
        LedCanvas.draw_text nh2 nv2 canvas font text pixel color kerning vertical
            = DrawTextResult.panicked) ∧
    (hasNul text = false →
      LedCanvas.draw_text nh nv canvas font text pixel color kerning vertical
          ≠ DrawTextResult.panicked) := by
  refine ⟨rfl, fun hs => ⟨?_, fun load2 => ?_⟩, fun hs => ?_,
    fun ht => ⟨?_, fun nh2 nv2 => ?_⟩, fun ht => ?_⟩
  · simp [LedFont.new, PathInput.toStr, hs]
  · simp [LedFont.new, PathInput.toStr, hs]
  · simp [LedFont.new, PathInput.toStr, hs]
    split <;> simp
  · simp [LedCanvas.draw_text, ht]
  · simp [LedCanvas.draw_text, ht]
  · simp [LedCanvas.draw_text, ht]
    split <;> simp

/-- Witness for C7: each encoding branch at concrete inputs. -/
theorem c7_encoding_failures_witness :
    (hasNul "a\x00b" = true ∧
      (LedFont.new (fun _ => 2) (PathInput.utf8 "a\x00b") = FontNewResult.panicked ∧
       ∀ load2 : String → Nat,
         LedFont.new load2 (PathInput.utf8 "a\x00b") = FontNewResult.panicked)) ∧
    (hasNul "font.bdf" = false ∧
      LedFont.new (fun _ => 2) (PathInput.utf8 "font.bdf") ≠ FontNewResult.panicked) ∧
    (hasNul "a\x00b" = true ∧
      (LedCanvas.draw_text (fun _ _ _ _ _ _ _ => 3) (fun _ _ _ _ _ _ _ => 3)
          ⟨0⟩ ⟨0⟩ "a\x00b" ⟨0, 0⟩ ⟨0, 0, 0⟩ 0 false = DrawTextResult.panicked ∧
       ∀ nh2 nv2 : Nat → Nat → Int → Int → LedColor → String → Int → Int,
         LedCanvas.draw_text nh2 nv2 ⟨0⟩ ⟨0⟩ "a\x00b" ⟨0, 0⟩ ⟨0, 0, 0⟩ 0 false
             = DrawTextResult.panicked)) ∧
    (hasNul "hi" = false →
      LedCanvas.draw_text (fun _ _ _ _ _ _ _ => 3) (fun _ _ _ _ _ _ _ => 3)
          ⟨0⟩ ⟨0⟩ "hi" ⟨0, 0⟩ ⟨0, 0, 0⟩ 0 false ≠ DrawTextResult.panicked) :=
  ⟨⟨by decide, (c7_encoding_failures (fun _ => 2) "a\x00b" "a\x00b"
      (fun _ _ _ _ _ _ _ => 3) (fun _ _ _ _ _ _ _ => 3)
      ⟨0⟩ ⟨0⟩ ⟨0, 0⟩ ⟨0, 0, 0⟩ 0 false).2.1 (by decide)⟩,
   ⟨by decide, (c7_encoding_failures (fun _ => 2) "font.bdf" "hi"
      (fun _ _ _ _ _ _ _ => 3) (fun _ _ _ _ _ _ _ => 3)
      ⟨0⟩ ⟨0⟩ ⟨0, 0⟩ ⟨0, 0, 0⟩ 0 false).2.2.1 (by decide)⟩,
   ⟨by decide, (c7_encoding_failures (fun _ => 2) "font.bdf" "a\x00b"
      (fun _ _ _ _ _ _ _ => 3) (fun _ _ _ _ _ _ _ => 3)
      ⟨0⟩ ⟨0⟩ ⟨0, 0⟩ ⟨0, 0, 0⟩ 0 false).2.2.2.1 (by decide)⟩,
   (c7_encoding_failures (fun _ => 2) "font.bdf" "hi"
      (fun _ _ _ _ _ _ _ => 3) (fun _ _ _ _ _ _ _ => 3)
      ⟨0⟩ ⟨0⟩ ⟨0, 0⟩ ⟨0, 0, 0⟩ 0 false).2.2.2.2⟩

/-- Claim C8: for a configuration with rows 64, columns 64, chain length 1
(and the default parallel count 1), the canvas size is exactly (64, 64). -/
theorem c8_canvas_size (o : Options) (hp : o.parallel = 1) :
    LedCanvas.size (((o.set_rows 64).set_cols 64).set_chain_length 1) = (64, 64) := by
  simp [LedCanvas.size, led_canvas_get_size, Options.set_rows, Options.set_cols,
    Options.set_chain_length, hp]

/-- Witness for C8: the concrete default-derived record. -/
theorem c8_canvas_size_witness :
    sampleOptions.parallel = 1 ∧
    LedCanvas.size (((sampleOptions.set_rows 64).set_cols 64).set_chain_length 1)
        = (64, 64) :=
  ⟨rfl, c8_canvas_size sampleOptions rfl⟩

/-- Claim C9 (counterexample): `LedColor` carries no `PartialEq` derive, so
it does not support equality comparison. -/
theorem c9_ledcolor_lacks_equality : ¬ ("PartialEq" ∈ ledColorDerives) := by decide

/-- Claim C9 (amended): `Pixel` derives equality and two pixels are equal
exactly when their fields are equal; `LedColor` exposes only field access and
derives no equality comparison. -/
theorem c9_value_types :
    ("PartialEq" ∈ pixelDerives ∧ "Eq" ∈ pixelDerives) ∧
    (∀ p q : Pixel, p = q ↔ p.x = q.x ∧ p.y = q.y) ∧
    "PartialEq" ∉ ledColorDerives := by
  refine ⟨⟨by decide, by decide⟩, fun p q => ?_, by decide⟩
  cases p
  cases q
  simp

/-- Claim C10: each string setter panics exactly on inputs with an interior
NUL, the panic happening after the previous buffer was freed, with the field
still holding the now-dead id; on NUL-free inputs all four setters succeed. -/
theorem c10_string_setters (h : Heap) (o : Options) (s : String) :
    (hasNul s = true →
      Options.set_hardware_mapping h o s
          = SetterResult.panicked (h.free o.hardware_mapping) o ∧
      (h.free o.hardware_mapping).live o.hardware_mapping = false ∧
      Options.set_led_rgb_sequence h o s
          = SetterResult.panicked (h.free o.led_rgb_sequence) o ∧
      (h.free o.led_rgb_sequence).live o.led_rgb_sequence = false ∧
      Options.set_pixel_mapper_config h o s
          = SetterResult.panicked (h.free o.pixel_mapper_config) o ∧
      (h.free o.pixel_mapper_config).live o.pixel_mapper_config = false ∧
      Options.set_panel_type h o s
          = SetterResult.panicked (h.free o.panel_type) o ∧
      (h.free o.panel_type).live o.panel_type = false) ∧
    (hasNul s = false →
      (Options.set_hardware_mapping h o s).isOk = true ∧
      (Options.set_led_rgb_sequence h o s).isOk = true ∧
      (Options.set_pixel_mapper_config h o s).isOk = true ∧
      (Options.set_panel_type h o s).isOk = true) := by
  constructor
  · intro hs
    simp [Options.set_hardware_mapping, Options.set_led_rgb_sequence,
      Options.set_pixel_mapper_config, Options.set_panel_type, Heap.cstringNew, hs,
      Heap.live_free_self]
  · intro hs
    simp [Options.set_hardware_mapping, Options.set_led_rgb_sequence,
      Options.set_pixel_mapper_config, Options.set_panel_type, Heap.cstringNew, hs,
      SetterResult.isOk]

/-- Witness for C10: the panic branch at an interior-NUL input and the
success branch at a NUL-free input, on the fresh record. -/
theorem c10_string_setters_witness :
    (hasNul "a\x00b" = true ∧
      (Options.set_hardware_mapping sampleHeap sampleOptions "a\x00b"
          = SetterResult.panicked (sampleHeap.free sampleOptions.hardware_mapping)
              sampleOptions ∧
       (sampleHeap.free sampleOptions.hardware_mapping).live
           sampleOptions.hardware_mapping = false ∧
       Options.set_led_rgb_sequence sampleHeap sampleOptions "a\x00b"
          = SetterResult.panicked (sampleHeap.free sampleOptions.led_rgb_sequence)
              sampleOptions ∧
       (sampleHeap.free sampleOptions.led_rgb_sequence).live
           sampleOptions.led_rgb_sequence = false ∧
       Options.set_pixel_mapper_config sampleHeap sampleOptions "a\x00b"
          = SetterResult.panicked (sampleHeap.free sampleOptions.pixel_mapper_config)
              sampleOptions ∧
       (sampleHeap.free sampleOptions.pixel_mapper_config).live
           sampleOptions.pixel_mapper_config = false ∧
       Options.set_panel_type sampleHeap sampleOptions "a\x00b"
          = SetterResult.panicked (sampleHeap.free sampleOptions.panel_type)
              sampleOptions ∧
       (sampleHeap.free sampleOptions.panel_type).live
           sampleOptions.panel_type = false)) ∧
    (hasNul "abc" = false ∧
      ((Options.set_hardware_mapping sampleHeap sampleOptions "abc").isOk = true ∧
       (Options.set_led_rgb_sequence sampleHeap sampleOptions "abc").isOk = true ∧
       (Options.set_pixel_mapper_config sampleHeap sampleOptions "abc").isOk = true ∧
       (Options.set_panel_type sampleHeap sampleOptions "abc").isOk = true)) :=
  ⟨⟨by decide, (c10_string_setters sampleHeap sampleOptions "a\x00b").1 (by decide)⟩,
   ⟨by decide, (c10_string_setters sampleHeap sampleOptions "abc").2 (by decide)⟩⟩
